import Mathlib

/-!
Verification of the core of `live_cta_agent.py` (telemetry buffer, trigger
engine, interaction cycle, monitor loop) against its specification.

Modelling conventions:
* the wall clock (`time.time()`) is passed explicitly as an `Int` number of
  seconds since the epoch (second resolution);
* each buffer operation is one atomic step (the Python lock only serialises
  the calls, so the interleaving-free view is faithful);
* collaborator calls (question generation, transcription) are parameters of
  type `Except String _`: `ok` is a normal return, `error` a raised exception;
* fallible steps return `Except`, carrying the observable partial state at
  the point where an exception propagates.
-/

/-- Python `str.startswith`, modelled on the character list. -/
def strStartsWith (s pre : String) : Bool :=
  pre.data.isPrefixOf s.data

/-- One buffered observation: the `(timestamp, event_str)` pair appended by
`TelemetryBuffer.add`. -/
structure Event where
  ts : Int
  txt : String
deriving DecidableEq

/-- Zero-pad a numeral to two digits, as `datetime` does for month, day,
hour, minute and second fields. -/
def pad2 (n : Nat) : String :=
  if n < 10 then "0" ++ toString n else toString n

/-- Zero-pad a numeral to four digits, as `datetime` does for the year. -/
def pad4 (n : Nat) : String :=
  if n < 10 then "000" ++ toString n
  else if n < 100 then "00" ++ toString n
  else if n < 1000 then "0" ++ toString n
  else toString n

/-- Proleptic-Gregorian civil date `(year, month, day)` from a count of days
since 1970-01-01 (the standard `civil_from_days` computation), modelling the
calendar arithmetic behind `datetime.fromtimestamp` with a UTC clock. -/
def civilFromDays (z : Int) : Int × Nat × Nat :=
  let zs := z + 719468
  let era := zs.fdiv 146097
  let doe := (zs - 146097 * era).toNat
  let yoe := (doe - doe / 1460 + doe / 36524 - doe / 146096) / 365
  let doy := doe - (365 * yoe + yoe / 4 - yoe / 100)
  let mp := (5 * doy + 2) / 153
  let d := doy - (153 * mp + 2) / 5 + 1
  let m := if mp < 10 then mp + 3 else mp - 9
  let y : Int := (yoe : Int) + 400 * era
  (if m ≤ 2 then y + 1 else y, m, d)

/-- `datetime.fromtimestamp(ts).isoformat()` at second resolution and a UTC
clock: `YYYY-MM-DDTHH:MM:SS`. -/
def isoformat (ts : Int) : String :=
  let days := ts.fdiv 86400
  let sod := (ts - 86400 * days).toNat
  let ymd := civilFromDays days
  pad4 ymd.1.toNat ++ "-" ++ pad2 ymd.2.1 ++ "-" ++ pad2 ymd.2.2 ++ "T" ++
    pad2 (sod / 3600) ++ ":" ++ pad2 (sod % 3600 / 60) ++ ":" ++ pad2 (sod % 60)

/-- The snapshot line format of `TelemetryBuffer.snapshot`: the ISO timestamp,
two spaces, then the event text. -/
def formatEvent (e : Event) : String :=
  isoformat e.ts ++ "  " ++ e.txt

/-- `TelemetryBuffer`: a `queue.deque(maxlen=maxlen)` of `(timestamp,
event_str)` pairs, oldest first. -/
structure TelemetryBuffer where
  maxlen : Nat
  buf : List Event
deriving DecidableEq

/-- A fresh buffer of the given capacity (the constructor default is 500). -/
def TelemetryBuffer.empty (maxlen : Nat) : TelemetryBuffer :=
  { maxlen := maxlen, buf := [] }

/-- `add(ev)`: append `(time.time(), ev)`; the bounded deque drops the oldest
entry when the capacity is exceeded. -/
def TelemetryBuffer.add (b : TelemetryBuffer) (now : Int) (ev : String) : TelemetryBuffer :=
  let buf := b.buf ++ [{ ts := now, txt := ev }]
  { b with buf := buf.drop (buf.length - b.maxlen) }

/-- `snapshot(last_n_secs)`: the formatted lines of the buffered events with
`ts >= time.time() - last_n_secs`, oldest first. -/
def TelemetryBuffer.snapshot (b : TelemetryBuffer) (now : Int) (last_n_secs : Int) : List String :=
  let cutoff := now - last_n_secs
  (b.buf.filter fun e => cutoff ≤ e.ts).map formatEvent

/-- Apply a sequence of `add` calls, each given as a `(timestamp, text)`
pair, to a buffer. -/
def applyAdds (b : TelemetryBuffer) (adds : List (Int × String)) : TelemetryBuffer :=
  adds.foldl (fun acc p => acc.add p.1 p.2) b

/-- The event a single `add` call constructs. -/
def mkEvent (p : Int × String) : Event :=
  { ts := p.1, txt := p.2 }

/-- Rule-engine state: the epoch time of the last prompt and the rolling list
of file-event timestamps. -/
structure TriggerEngine where
  last_prompt : Int
  file_events : List Int
deriving DecidableEq

/-- The idle-pause reason string returned by the first rule. -/
def idleReason : String :=
  "I noticed a short pause—what were you thinking through just now?"

/-- The file-burst reason string returned by the second rule. -/
def burstReason : String :=
  "You opened several new files—how did you choose which ones mattered?"

/-- `TriggerEngine.evaluate(telemetry)`: returns the engine state after the
call together with the optional reason.  The guards test
`ev.startswith("[key]")`, `ev.startswith("[mouse]")` and
`ev.startswith("[file+]")` on the lines returned by `snapshot(6)`, which are
the formatted lines (ISO timestamp first).  The `file_events` pruning and
append happen only when the first rule does not return early, exactly as in
the source. -/
def TriggerEngine.evaluate (t : TriggerEngine) (telemetry : TelemetryBuffer) (now : Int) :
    TriggerEngine × Option String :=
  let recent := telemetry.snapshot now 6
  let any_input := recent.any fun ev => strStartsWith ev "[key]" || strStartsWith ev "[mouse]"
  if any_input = false ∧ 15 < now - t.last_prompt then
    (t, some idleReason)
  else
    let fe0 := t.file_events.filter fun ts => decide (now - ts < 30)
    let fe := fe0 ++ (if recent.any (fun ev => strStartsWith ev "[file+]") = true then [now] else [])
    if 3 ≤ fe.length ∧ 30 < now - t.last_prompt then
      ({ t with file_events := fe }, some burstReason)
    else
      ({ t with file_events := fe }, none)

example : isoformat 0 = "1970-01-01T00:00:00" := by decide
example : formatEvent { ts := 1, txt := "A" } = "1970-01-01T00:00:01  A" := by decide
example : strStartsWith "1970-01-01T00:00:20  [key] a" "[key]" = false := by decide
example : strStartsWith "[key] a" "[key]" = true := by decide

lemma drop_snoc_drop (l : List Event) (x : Event) (N : Nat) :
    (l.drop (l.length - N) ++ [x]).drop ((l.drop (l.length - N)).length + 1 - N)
      = (l ++ [x]).drop (l.length + 1 - N) := by
  rcases Nat.le_total l.length N with h | h
  · rw [Nat.sub_eq_zero_of_le h, List.drop_zero]
  · have hlen : (l.drop (l.length - N)).length = N := by
      rw [List.length_drop]; omega
    have h1 : N + 1 - N = 1 := by omega
    have h2 : l.drop (l.length - N) ++ [x] = (l ++ [x]).drop (l.length - N) := by
      rw [List.drop_append_eq_append_drop]
      have h3 : l.length - N - l.length = 0 := by omega
      rw [h3, List.drop_zero]
    rw [hlen, h1, h2, List.drop_drop]
    congr 1
    omega

lemma add_drop (l : List Event) (N : Nat) (now : Int) (ev : String) :
    (TelemetryBuffer.mk N (l.drop (l.length - N))).add now ev
      = TelemetryBuffer.mk N ((l ++ [Event.mk now ev]).drop (l.length + 1 - N)) := by
  simp only [TelemetryBuffer.add, List.length_append, List.length_singleton]
  congr 1
  exact drop_snoc_drop l (Event.mk now ev) N

lemma applyAdds_buf (N : Nat) (adds : List (Int × String)) :
    ∀ l : List Event,
      (applyAdds (TelemetryBuffer.mk N (l.drop (l.length - N))) adds).buf
        = (l ++ adds.map mkEvent).drop (l.length + adds.length - N) := by
  induction adds with
  | nil =>
    intro l
    simp [applyAdds]
  | cons p rest ih =>
    intro l
    have hstep : applyAdds (TelemetryBuffer.mk N (l.drop (l.length - N))) (p :: rest)
        = applyAdds ((TelemetryBuffer.mk N (l.drop (l.length - N))).add p.1 p.2) rest := rfl
    rw [hstep, add_drop]
    have hcast : Event.mk p.1 p.2 = mkEvent p := rfl
    have hlen : (l ++ [mkEvent p]).length = l.length + 1 := by simp
    have := ih (l ++ [mkEvent p])
    rw [hlen] at this
    rw [hcast, this, List.append_assoc]
    have hmap : [mkEvent p] ++ rest.map mkEvent = (p :: rest).map mkEvent := by simp
    rw [hmap]
    congr 1
    simp
    omega

lemma applyAdds_empty_buf (N : Nat) (adds : List (Int × String)) :
    (applyAdds (TelemetryBuffer.empty N) adds).buf
      = (adds.map mkEvent).drop (adds.length - N) := by
  have h := applyAdds_buf N adds []
  simpa [TelemetryBuffer.empty] using h

/-- C1: for every sequence of `add` calls on a buffer of capacity `N` and
every window `w`, the buffer retains exactly the most recent (at most `N`)
adds in insertion order, `snapshot` returns exactly the formatted lines of
the buffered events with `timestamp >= now - w` in that order, the result is
an order-preserving subsequence of the formatted add sequence, and its length
never exceeds `N`. -/
theorem snapshot_window_correct (N : Nat) (adds : List (Int × String)) (now w : Int) :
    (applyAdds (TelemetryBuffer.empty N) adds).buf
        = (adds.map mkEvent).drop (adds.length - N)
    ∧ (applyAdds (TelemetryBuffer.empty N) adds).snapshot now w
        = (((adds.map mkEvent).drop (adds.length - N)).filter fun e =>
            now - w ≤ e.ts).map formatEvent
    ∧ ((applyAdds (TelemetryBuffer.empty N) adds).snapshot now w).Sublist
        ((adds.map mkEvent).map formatEvent)
    ∧ ((applyAdds (TelemetryBuffer.empty N) adds).snapshot now w).length ≤ N := by
  have hbuf := applyAdds_empty_buf N adds
  refine ⟨hbuf, ?_, ?_, ?_⟩
  · simp only [TelemetryBuffer.snapshot, hbuf]
  · simp only [TelemetryBuffer.snapshot, hbuf]
    exact ((List.filter_sublist _).trans (List.drop_sublist _ _)).map formatEvent
  · simp only [TelemetryBuffer.snapshot, hbuf, List.length_map]
    calc (((adds.map mkEvent).drop (adds.length - N)).filter fun e =>
            decide (now - w ≤ e.ts)).length
        ≤ ((adds.map mkEvent).drop (adds.length - N)).length :=
          (List.filter_sublist _).length_le
      _ ≤ N := by
          rw [List.length_drop, List.length_map]
          omega

/-- C4: after `N + 1` adds on a buffer of capacity `N`, the buffer holds
exactly the `N` later adds in order, so the earliest-appended event is
evicted; in particular (when its formatted line differs from the later ones)
it is absent from any snapshot. -/
theorem eviction_after_capacity_plus_one (N : Nat) (p : Int × String)
    (rest : List (Int × String)) (h : rest.length = N) (now w : Int) :
    (applyAdds (TelemetryBuffer.empty N) (p :: rest)).buf = rest.map mkEvent
    ∧ (formatEvent (mkEvent p) ∉ rest.map (fun q => formatEvent (mkEvent q)) →
        formatEvent (mkEvent p) ∉ (applyAdds (TelemetryBuffer.empty N) (p :: rest)).snapshot now w) := by
  have hbuf : (applyAdds (TelemetryBuffer.empty N) (p :: rest)).buf = rest.map mkEvent := by
    rw [applyAdds_empty_buf]
    simp [h]
  refine ⟨hbuf, ?_⟩
  intro habs hmem
  apply habs
  simp only [TelemetryBuffer.snapshot, hbuf] at hmem
  rcases List.mem_map.mp hmem with ⟨e, he, hfe⟩
  have he2 : e ∈ rest.map mkEvent := (List.filter_sublist _).subset he
  rcases List.mem_map.mp he2 with ⟨q, hq, hqe⟩
  refine List.mem_map.mpr ⟨q, hq, ?_⟩
  rw [hqe, hfe]

/-- Witness for C4 at the concrete scenario of the claim: capacity 3, adds
A, B, C, D at times 0, 1, 2, 3; the full-window snapshot is exactly the
formatted B, C, D and the formatted A is absent. -/
theorem eviction_after_capacity_plus_one_witness :
    (applyAdds (TelemetryBuffer.empty 3) [(0, "A"), (1, "B"), (2, "C"), (3, "D")]).snapshot 3 1000000000
      = [formatEvent (mkEvent (1, "B")), formatEvent (mkEvent (2, "C")),
         formatEvent (mkEvent (3, "D"))]
    ∧ formatEvent (mkEvent (0, "A"))
        ∉ (applyAdds (TelemetryBuffer.empty 3) [(0, "A"), (1, "B"), (2, "C"), (3, "D")]).snapshot 3 1000000000 := by
  constructor
  · decide
  · exact (eviction_after_capacity_plus_one 3 (0, "A") [(1, "B"), (2, "C"), (3, "D")]
      rfl 3 1000000000).2 (by decide)

/-- C2 (code bug): a `[key]` event sits in the trailing 6-second window, more
than 15 seconds have elapsed since `last_prompt`, and `evaluate` still
returns the idle-pause reason.  The snapshot lines carry the ISO timestamp in
front, so `ev.startswith("[key]")` never matches a formatted line and the
no-input guard is vacuously satisfied. -/
theorem idle_rule_fires_despite_key_event :
    ((TelemetryBuffer.empty 500).add 20 "[key] a").snapshot 20 6
        = ["1970-01-01T00:00:20  [key] a"]
    ∧ (((TelemetryBuffer.empty 500).add 20 "[key] a").buf.any fun e =>
        strStartsWith e.txt "[key]" && decide (20 - 6 ≤ e.ts)) = true
    ∧ ((TriggerEngine.mk 0 []).evaluate ((TelemetryBuffer.empty 500).add 20 "[key] a") 20).2
        = some idleReason := by
  refine ⟨by decide, by decide, by decide⟩

/-- C3 (code bug): with `[file+]` events at t = 0, 10, 20 and
`last_prompt = 0`, evaluating at t = 25 returns the idle-pause reason (not
the file-burst reason) and leaves `file_events` empty, and evaluating at
t = 41 again returns the idle-pause reason (not no-trigger).  The
`ev.startswith("[file+]")` guard tests the timestamp-prefixed snapshot lines,
so `file_events` never grows and the idle rule, whose own input check is
broken the same way, shadows everything once 15 seconds have elapsed. -/
theorem file_burst_rule_dead :
    ((TriggerEngine.mk 0 []).evaluate
        (applyAdds (TelemetryBuffer.empty 500)
          [(0, "[file+] /a"), (10, "[file+] /b"), (20, "[file+] /c")]) 25)
      = (TriggerEngine.mk 0 [], some idleReason)
    ∧ ((TriggerEngine.mk 0 []).evaluate
        (applyAdds (TelemetryBuffer.empty 500)
          [(0, "[file+] /a"), (10, "[file+] /b"), (20, "[file+] /c")]) 41)
      = (TriggerEngine.mk 0 [], some idleReason)
    ∧ idleReason ≠ burstReason := by
  refine ⟨by decide, by decide, by decide⟩

/-- C9 (counterexample): an `evaluate` call that returns on the idle-pause
path leaves `file_events` untouched, so a timestamp 100 seconds old — far
older than 30 seconds — survives the call. -/
theorem stale_file_event_survives_idle_return :
    ((TriggerEngine.mk 0 [0]).evaluate (TelemetryBuffer.empty 500) 100).1.file_events = [0]
    ∧ ((TriggerEngine.mk 0 [0]).evaluate (TelemetryBuffer.empty 500) 100).2 = some idleReason
    ∧ (30 : Int) < 100 - 0 := by
  refine ⟨by decide, by decide, by decide⟩

/-- C9 (amended): on every `evaluate` call that does not return on the
idle-pause path, entries older than 30 seconds are dropped, so the resulting
`file_events` list holds only timestamps younger than 30 seconds; a call
returning the idle-pause reason leaves the list unchanged. -/
theorem stale_entries_dropped_when_not_idle (t : TriggerEngine) (buf : TelemetryBuffer)
    (now : Int) (h : (t.evaluate buf now).2 ≠ some idleReason) :
    ∀ ts ∈ (t.evaluate buf now).1.file_events, now - ts < 30 := by
  intro ts hts
  by_cases hc : ((buf.snapshot now 6).any fun ev =>
      strStartsWith ev "[key]" || strStartsWith ev "[mouse]") = false ∧ 15 < now - t.last_prompt
  · exfalso
    apply h
    simp only [TriggerEngine.evaluate]
    rw [if_pos hc]
  · have hfe : (t.evaluate buf now).1.file_events
        = (t.file_events.filter fun x => decide (now - x < 30))
          ++ (if ((buf.snapshot now 6).any fun ev => strStartsWith ev "[file+]") = true
              then [now] else []) := by
      simp only [TriggerEngine.evaluate]
      rw [if_neg hc]
      split <;> split <;> rfl
    rw [hfe] at hts
    rcases List.mem_append.mp hts with hl | hr
    · exact of_decide_eq_true (List.mem_filter.mp hl).2
    · split at hr
      · rw [List.mem_singleton] at hr
        omega
      · exact absurd hr (List.not_mem_nil ts)

/-- Witness for the amended C9: a concrete call that does not take the
idle-pause path, after which every retained timestamp is younger than 30
seconds. -/
theorem stale_entries_dropped_when_not_idle_witness :
    ((TriggerEngine.mk 100 [0]).evaluate (TelemetryBuffer.empty 500) 10).2 ≠ some idleReason
    ∧ ∀ ts ∈ ((TriggerEngine.mk 100 [0]).evaluate (TelemetryBuffer.empty 500) 10).1.file_events,
        (10 : Int) - ts < 30 :=
  ⟨by decide, stale_entries_dropped_when_not_idle (TriggerEngine.mk 100 [0])
    (TelemetryBuffer.empty 500) 10 (by decide)⟩

/-- One line of `cta_log.jsonl`: question, optional answer and the context
lines stored with it. -/
structure QARecord where
  question : String
  answer : Option String
  context : List String
deriving DecidableEq

/-- The observable outcome of one `ask_cta_question` call: whether the
temporary wav file is still on disk, and the records appended to
`cta_log.jsonl`. -/
structure CycleResult where
  tmpFileExists : Bool
  logAppended : List QARecord
deriving DecidableEq

/-- `CTAGUI.ask_cta_question(question, ctx)`, with the user yes/no choice and
the transcription outcome supplied as collaborator parameters (`Except.error`
models a raised exception).  On accept the wav file is written, then
transcribed; `os.remove` and the log write run only after a successful
transcription — a transcription exception propagates first, carried here in
the `error` case together with the state at that point.  On decline no wav
file is created and the record is written with `answer = None`.  The log line
stores `ctx[-20:]`. -/
def ask_cta_question (accept : Bool) (tr : Except String String)
    (question : String) (ctx : List String) : Except (String × CycleResult) CycleResult :=
  if accept then
    match tr with
    | Except.ok text =>
        Except.ok { tmpFileExists := false,
                    logAppended := [{ question := question, answer := some text,
                                      context := ctx.drop (ctx.length - 20) }] }
    | Except.error e =>
        Except.error (e, { tmpFileExists := true, logAppended := [] })
  else
    Except.ok { tmpFileExists := false,
                logAppended := [{ question := question, answer := none,
                                  context := ctx.drop (ctx.length - 20) }] }

/-- Whether the temporary wav file remains on disk after `ask_cta_question`
exits, on either exit (normal return or propagated exception). -/
def finalTmp : Except (String × CycleResult) CycleResult → Bool
  | Except.ok st => st.tmpFileExists
  | Except.error es => es.2.tmpFileExists

/-- The `cta_log.jsonl` lines appended by an `ask_cta_question` call, on
either exit. -/
def finalLog : Except (String × CycleResult) CycleResult → List QARecord
  | Except.ok st => st.logAppended
  | Except.error es => es.2.logAppended

/-- C5 (counterexample): when the user accepts and the transcription call
raises, `ask_cta_question` exits with the temporary wav file still on disk —
the claim that the artifact is deleted on every exit path fails on this
input. -/
theorem tmp_file_leak_on_transcription_error :
    finalTmp (ask_cta_question true (Except.error "TranscriptionError") "Q" []) = true := by
  decide

/-- C5 (amended): the temporary audio artifact is deleted only on the
successful-transcription exit path; when transcription raises, the exception
propagates before `os.remove` and the artifact is left on disk; when the
user declines, no artifact is created. -/
theorem tmp_file_cleanup_only_on_success (q text e : String) (ctx : List String)
    (tr : Except String String) :
    finalTmp (ask_cta_question true (Except.ok text) q ctx) = false
    ∧ finalTmp (ask_cta_question true (Except.error e) q ctx) = true
    ∧ finalTmp (ask_cta_question false tr q ctx) = false := by
  refine ⟨rfl, rfl, ?_⟩
  cases tr <;> rfl

/-- C8 (counterexample): when the user accepts and the transcription call
raises, no `QARecord` at all is appended — the claim that a failed
recording/transcription still yields one record with an absent answer fails
on this input. -/
theorem no_record_on_transcription_error :
    finalLog (ask_cta_question true (Except.error "TranscriptionError") "Q" ["c"]) = [] := by
  decide

/-- C8 (amended): a declined recording appends exactly one `QARecord` with
`answer` absent and the question plus the last 20 context lines populated;
but a failed transcription propagates its exception before the log write, so
no record is appended in that case. -/
theorem qa_record_on_decline_only (q e : String) (ctx : List String)
    (tr : Except String String) :
    ask_cta_question false tr q ctx
        = Except.ok { tmpFileExists := false,
                      logAppended := [{ question := q, answer := none,
                                        context := ctx.drop (ctx.length - 20) }] }
    ∧ finalLog (ask_cta_question true (Except.error e) q ctx) = [] := by
  refine ⟨?_, rfl⟩
  cases tr <;> rfl

/-- The observable outcome of one invocation of `CTAGUI.monitor_loop`: the
trigger state afterwards, the `cta_log.jsonl` lines appended, and whether
`self.after(1000, self.monitor_loop)` was reached (an exception raised by
the cycle propagates out of the callback before that call). -/
structure TickOutcome where
  trigger : TriggerEngine
  logAppended : List QARecord
  nextTickScheduled : Bool
deriving DecidableEq

/-- One invocation of `CTAGUI.monitor_loop`, with the clock, the question
generation outcome, the user choice and the transcription outcome supplied
as parameters.  `tAfter` is the `time.time()` read for
`self.trigger.last_prompt = time.time()` after a completed cycle.  When the
stop event is set the body is skipped but the next tick is still scheduled.
`evaluate` mutates `self.trigger.file_events` in place before anything can
raise, so its state update survives every path. -/
def monitor_tick (stopSet : Bool) (t : TriggerEngine) (buf : TelemetryBuffer)
    (now tAfter : Int) (llm : Except String String) (accept : Bool)
    (tr : Except String String) : TickOutcome :=
  if stopSet then
    { trigger := t, logAppended := [], nextTickScheduled := true }
  else
    let r := t.evaluate buf now
    match r.2 with
    | none => { trigger := r.1, logAppended := [], nextTickScheduled := true }
    | some _ =>
      let ctx := buf.snapshot now 60
      match llm with
      | Except.error _ =>
          { trigger := r.1, logAppended := [], nextTickScheduled := false }
      | Except.ok question =>
          match ask_cta_question accept tr question ctx with
          | Except.error es =>
              { trigger := r.1, logAppended := es.2.logAppended, nextTickScheduled := false }
          | Except.ok st =>
              { trigger := { r.1 with last_prompt := tAfter },
                logAppended := st.logAppended, nextTickScheduled := true }

lemma evaluate_last_prompt (t : TriggerEngine) (buf : TelemetryBuffer) (now : Int) :
    (t.evaluate buf now).1.last_prompt = t.last_prompt := by
  simp only [TriggerEngine.evaluate]
  split
  · rfl
  · split <;> split <;> rfl

/-- C6 (counterexample): with the stop event clear, a fired trigger and a
failing question-generation call, the monitor tick does not schedule the
next tick — the exception propagates out of `monitor_loop` before
`self.after` runs, so an error inside one cycle does terminate the
scheduling loop. -/
theorem tick_not_scheduled_on_model_error :
    (monitor_tick false (TriggerEngine.mk 0 []) (TelemetryBuffer.empty 500) 20 20
        (Except.error "ModelError") false (Except.ok "x")).nextTickScheduled = false := by
  decide

/-- C6 (amended): the next 1-second tick is scheduled iff the stop event is
set, or no trigger fires, or the whole cycle (question generation, optional
recording and transcription, log write) completes without an exception; any
exception raised inside the cycle skips the `self.after` call and halts the
scheduling loop. -/
theorem next_tick_scheduled_iff (stopSet : Bool) (t : TriggerEngine) (buf : TelemetryBuffer)
    (now tAfter : Int) (llm : Except String String) (accept : Bool)
    (tr : Except String String) :
    (monitor_tick stopSet t buf now tAfter llm accept tr).nextTickScheduled = true
      ↔ stopSet = true ∨ (t.evaluate buf now).2 = none
        ∨ (∃ q, llm = Except.ok q
            ∧ ∃ st, ask_cta_question accept tr q (buf.snapshot now 60) = Except.ok st) := by
  unfold monitor_tick
  by_cases hs : stopSet
  · simp [hs]
  · simp only [hs, if_false, Bool.false_eq_true, false_or]
    cases hr : (t.evaluate buf now).2 with
    | none => simp
    | some reason =>
      simp only [reduceCtorEq, false_or]
      cases llm with
      | error e =>
        simp
      | ok q =>
        cases hask : ask_cta_question accept tr q (buf.snapshot now 60) with
        | error es => simp [hask]
        | ok st => simp [hask]

/-- C7: when the question-generation call fails, `last_prompt` is left
unchanged by the tick and no `QARecord` is appended — on that path the
exception propagates before both the log write and the
`self.trigger.last_prompt` assignment. -/
theorem model_error_preserves_state (stopSet : Bool) (t : TriggerEngine)
    (buf : TelemetryBuffer) (now tAfter : Int) (accept : Bool)
    (tr : Except String String) (e : String) :
    (monitor_tick stopSet t buf now tAfter (Except.error e) accept tr).trigger.last_prompt
        = t.last_prompt
    ∧ (monitor_tick stopSet t buf now tAfter (Except.error e) accept tr).logAppended = [] := by
  unfold monitor_tick
  by_cases hs : stopSet
  · simp [hs]
  · simp only [hs, if_false]
    cases hr : (t.evaluate buf now).2 with
    | none => simpa using evaluate_last_prompt t buf now
    | some reason => simpa using evaluate_last_prompt t buf now

/-- The application state held by the `CTAGUI` object: the (shared) telemetry
buffer and trigger engine created once in `__init__`, the session start
time, the stop event, and the session log files written so far (start time
paired with the dumped lines). -/
structure CTAGUI where
  telemetry : TelemetryBuffer
  trigger : TriggerEngine
  start_time : Int
  stopEventSet : Bool
  sessionLogs : List (Int × List String)
deriving DecidableEq

/-- `CTAGUI.dump_log`: write every line of `snapshot(10**9)` to
`session_<start_time>.log`. -/
def CTAGUI.dump_log (g : CTAGUI) (now : Int) : CTAGUI :=
  { g with sessionLogs := g.sessionLogs ++ [(g.start_time, g.telemetry.snapshot now (10 ^ 9))] }

/-- `CTAGUI.stop_task`: set the stop event, join the producer threads, and
dump the session log.  The telemetry buffer and the trigger engine are not
touched. -/
def CTAGUI.stop_task (g : CTAGUI) (now : Int) : CTAGUI :=
  ({ g with stopEventSet := true }).dump_log now

/-- `CTAGUI.start_task`: clear the stop event, record the session start time
and launch the producers.  The telemetry buffer and the trigger engine are
not touched. -/
def CTAGUI.start_task (g : CTAGUI) (now : Int) : CTAGUI :=
  { g with stopEventSet := false, start_time := now }

/-- C10: stopping a task and starting a new one leaves the telemetry buffer
and the whole trigger state (`last_prompt` and `file_events`) unchanged, and
the new session's full-window dump is the dump of that same unchanged
buffer, so it still lists every retained event of the previous session
(every buffered event inside the `10^9`-second dump window). -/
theorem stop_start_frame (g : CTAGUI) (t1 t2 t3 : Int) :
    ((g.stop_task t1).start_task t2).telemetry = g.telemetry
    ∧ ((g.stop_task t1).start_task t2).trigger = g.trigger
    ∧ (((g.stop_task t1).start_task t2).dump_log t3).sessionLogs
        = (g.stop_task t1).sessionLogs ++ [(t2, g.telemetry.snapshot t3 (10 ^ 9))]
    ∧ ∀ e ∈ g.telemetry.buf, t3 - 10 ^ 9 ≤ e.ts →
        formatEvent e ∈ g.telemetry.snapshot t3 (10 ^ 9) := by
  refine ⟨rfl, rfl, rfl, ?_⟩
  intro e he hts
  exact List.mem_map_of_mem formatEvent (List.mem_filter.mpr ⟨he, decide_eq_true hts⟩)

/-- Witness for C10: a concrete state with one buffered event and a nonempty
trigger state; after stop and restart the buffer and trigger are unchanged
and the previous session's event appears in the new full-window snapshot. -/
theorem stop_start_frame_witness :
    ((CTAGUI.mk (TelemetryBuffer.mk 500 [Event.mk 5 "[win] x"]) (TriggerEngine.mk 7 [3])
          0 false []).stop_task 10).start_task 11
      = CTAGUI.mk (TelemetryBuffer.mk 500 [Event.mk 5 "[win] x"]) (TriggerEngine.mk 7 [3])
          11 false [(0, (TelemetryBuffer.mk 500 [Event.mk 5 "[win] x"]).snapshot 10 (10 ^ 9))]
    ∧ formatEvent (Event.mk 5 "[win] x")
        ∈ (TelemetryBuffer.mk 500 [Event.mk 5 "[win] x"]).snapshot 12 (10 ^ 9) := by
  refine ⟨by decide, ?_⟩
  exact (stop_start_frame
    (CTAGUI.mk (TelemetryBuffer.mk 500 [Event.mk 5 "[win] x"]) (TriggerEngine.mk 7 [3]) 0 false [])
    10 11 12).2.2.2 (Event.mk 5 "[win] x") (by decide) (by decide)
